import Mathlib

/-!
Verification of the Finance Assistant repository: a shallow embedding of
the web client's authentication context, the dashboard derivations, the
SQL schema's views and foreign-key delete actions, and the exit/report
logic of the operational test and deploy scripts, together with theorems
settling the specification's claims about them.
-/

deriving instance DecidableEq for Except

namespace AuthClient

/-- The authenticated user payload (`User` from `types/auth`); the reducer
treats it opaquely, so only identity-bearing fields are modelled. -/
structure User where
  id : Nat
  email : String
deriving Repr, DecidableEq

/-- `AuthState` from the auth context module. -/
structure AuthState where
  user : Option User
  isAuthenticated : Bool
  isLoading : Bool
  error : Option String
deriving Repr, DecidableEq

/-- `AuthAction` from the auth context module. -/
inductive AuthAction where
  | LOGIN_START
  | LOGIN_SUCCESS (payload : User)
  | LOGIN_FAILURE (payload : String)
  | LOGOUT
  | CLEAR_ERROR
  | SET_LOADING (payload : Bool)
deriving Repr, DecidableEq

/-- `initialState` from the auth context module. -/
def initialState : AuthState :=
  { user := none, isAuthenticated := false, isLoading := true, error := none }

/-- `authReducer` from the auth context module, translated case by case. -/
def authReducer (state : AuthState) (action : AuthAction) : AuthState :=
  match action with
  | .LOGIN_START => { state with isLoading := true, error := none }
  | .LOGIN_SUCCESS payload =>
      { state with user := some payload, isAuthenticated := true,
                   isLoading := false, error := none }
  | .LOGIN_FAILURE payload =>
      { state with user := none, isAuthenticated := false,
                   isLoading := false, error := some payload }
  | .LOGOUT =>
      { state with user := none, isAuthenticated := false,
                   isLoading := false, error := none }
  | .CLEAR_ERROR => { state with error := none }
  | .SET_LOADING payload => { state with isLoading := payload }

/-- The two `localStorage` keys the auth provider reads and writes. -/
structure Storage where
  accessToken : Option String
  refreshToken : Option String
deriving Repr, DecidableEq

/-- States reachable from `initialState` by dispatching actions through
`authReducer`. -/
inductive Reachable : AuthState → Prop where
  | init : Reachable initialState
  | step (s : AuthState) (a : AuthAction) : Reachable s → Reachable (authReducer s a)

/-- Dispatching a list of actions in order. -/
def applyActions (s : AuthState) (as : List AuthAction) : AuthState :=
  as.foldl authReducer s

/-- `initAuth` from the auth provider's startup effect.  The network call
`authService.getCurrentUser()` is an input: its resolution or rejection is
the `getCurrentUser` argument.  Returns the storage after the run and the
actions dispatched. -/
def initAuth (st : Storage) (getCurrentUser : Except String User) :
    Storage × List AuthAction :=
  match st.accessToken with
  | some _ =>
      match getCurrentUser with
      | .ok u => (st, [AuthAction.LOGIN_SUCCESS u])
      | .error _ =>
          ({ accessToken := none, refreshToken := none },
           [AuthAction.SET_LOADING false])
  | none => (st, [AuthAction.SET_LOADING false])

/-- The `access_token`/`refresh_token`/`mfa_required` fields of the
backend's login response used by the client. -/
structure LoginResponse where
  mfa_required : Bool
  access_token : String
  refresh_token : String
deriving Repr, DecidableEq

/-- Result of running one client auth operation: the storage afterwards,
the actions dispatched, and whether the returned promise resolves
(`Except.ok`) or rejects with an error message (`Except.error`). -/
structure OpResult where
  storage : Storage
  dispatched : List AuthAction
  outcome : Except String Unit
deriving Repr, DecidableEq

/-- The provider's `login` function.  The two network calls are inputs:
`loginCall` is the resolution/rejection of `authService.login`, and
`getCurrentUser` that of `authService.getCurrentUser`.  Mirrors the
source: the MFA throw happens inside the `try`, before tokens are stored,
and the `catch` converts every error into a `LOGIN_FAILURE` dispatch, so
the promise itself resolves. -/
def login (st : Storage) (loginCall : Except String LoginResponse)
    (getCurrentUser : Except String User) : OpResult :=
  match loginCall with
  | .error e =>
      { storage := st
        dispatched := [AuthAction.LOGIN_START, AuthAction.LOGIN_FAILURE e]
        outcome := .ok () }
  | .ok response =>
      if response.mfa_required then
        { storage := st
          dispatched := [AuthAction.LOGIN_START,
                         AuthAction.LOGIN_FAILURE "MFA not implemented in this demo"]
          outcome := .ok () }
      else
        let st2 : Storage :=
          { accessToken := some response.access_token,
            refreshToken := some response.refresh_token }
        match getCurrentUser with
        | .ok u =>
            { storage := st2
              dispatched := [AuthAction.LOGIN_START, AuthAction.LOGIN_SUCCESS u]
              outcome := .ok () }
        | .error e =>
            { storage := st2
              dispatched := [AuthAction.LOGIN_START, AuthAction.LOGIN_FAILURE e]
              outcome := .ok () }

/-- A fresh access/refresh token pair returned by the refresh endpoint. -/
structure TokenPair where
  access_token : String
  refresh_token : String
deriving Repr, DecidableEq

/-- The provider's `refreshToken` function.  `refreshCall` is the
resolution/rejection of `authService.refreshToken` (consulted only when a
refresh token is stored).  Mirrors the source: with no stored refresh
token it throws before the `try`, so no logout happens; when the refresh
call fails it runs `logout()` (which clears both tokens and dispatches
`LOGOUT`, ignoring the backend call's result) and rethrows. -/
def refreshTokenOp (st : Storage) (refreshCall : Except String TokenPair) :
    OpResult :=
  match st.refreshToken with
  | none =>
      { storage := st, dispatched := [],
        outcome := .error "No refresh token available" }
  | some _ =>
      match refreshCall with
      | .ok response =>
          { storage := { accessToken := some response.access_token,
                         refreshToken := some response.refresh_token }
            dispatched := []
            outcome := .ok () }
      | .error e =>
          { storage := { accessToken := none, refreshToken := none }
            dispatched := [AuthAction.LOGOUT]
            outcome := .error e }

end AuthClient

namespace AuthClient

/-- C1: the authentication reducer keeps every reachable state from having
`isAuthenticated = true` with `user = none`; a `LOGIN_SUCCESS` or
`LOGIN_FAILURE` action always leaves `isLoading = false`; and startup with
a stored but invalid access token ends unauthenticated, not loading, with
both stored tokens removed. -/
theorem C1_auth_state_invariants :
    (∀ s : AuthState, Reachable s → s.isAuthenticated = true → s.user ≠ none) ∧
    (∀ (s : AuthState) (u : User),
      (authReducer s (AuthAction.LOGIN_SUCCESS u)).isLoading = false) ∧
    (∀ (s : AuthState) (e : String),
      (authReducer s (AuthAction.LOGIN_FAILURE e)).isLoading = false) ∧
    (∀ (st : Storage) (tok err : String), st.accessToken = some tok →
      (initAuth st (.error err)).1.accessToken = none ∧
      (initAuth st (.error err)).1.refreshToken = none ∧
      (applyActions initialState (initAuth st (.error err)).2).isAuthenticated = false ∧
      (applyActions initialState (initAuth st (.error err)).2).user = none ∧
      (applyActions initialState (initAuth st (.error err)).2).isLoading = false) := by
  refine ⟨?_, ?_, ?_, ?_⟩
  · intro s hs
    induction hs with
    | init => intro h; simp [initialState] at h
    | step s a _ ih =>
        cases a <;> simp [authReducer] <;> intro h
        · exact ih h
        · exact ih h
        · exact ih h
  · intro s u; rfl
  · intro s e; rfl
  · intro st tok err h
    simp [initAuth, h, applyActions, authReducer, initialState]

/-- Witness for C1 at concrete inputs. -/
theorem C1_auth_state_invariants_witness :
    (initialState.isAuthenticated = true → initialState.user ≠ none) ∧
    ((initAuth { accessToken := some "t", refreshToken := some "r" }
        (.error "invalid token")).1.accessToken = none) := by
  refine ⟨C1_auth_state_invariants.1 initialState Reachable.init, ?_⟩
  exact (C1_auth_state_invariants.2.2.2
    { accessToken := some "t", refreshToken := some "r" } "t" "invalid token" rfl).1

/-- C2 counterexample: with an access token stored but no refresh token,
`refreshToken` rejects yet does not clear the stored access token and
dispatches no `LOGOUT` — the claimed forced logout does not happen on the
missing-refresh-token path. -/
theorem C2_counterexample :
    (refreshTokenOp { accessToken := some "A", refreshToken := none }
        (.error "unused")).outcome = .error "No refresh token available" ∧
    (refreshTokenOp { accessToken := some "A", refreshToken := none }
        (.error "unused")).storage.accessToken = some "A" ∧
    (refreshTokenOp { accessToken := some "A", refreshToken := none }
        (.error "unused")).dispatched = [] := by
  decide

/-- C2 amended: when a refresh token is stored and the refresh call fails,
`refreshToken` clears both stored tokens, dispatches `LOGOUT`, and rejects
with the call's error; when no refresh token is stored it rejects with
"No refresh token available" leaving storage untouched and dispatching
nothing. -/
theorem C2_refresh_failure_behavior :
    (∀ (st : Storage) (tok e : String), st.refreshToken = some tok →
      (refreshTokenOp st (.error e)).storage.accessToken = none ∧
      (refreshTokenOp st (.error e)).storage.refreshToken = none ∧
      (refreshTokenOp st (.error e)).dispatched = [AuthAction.LOGOUT] ∧
      (refreshTokenOp st (.error e)).outcome = .error e) ∧
    (∀ (st : Storage) (call : Except String TokenPair), st.refreshToken = none →
      (refreshTokenOp st call).storage = st ∧
      (refreshTokenOp st call).dispatched = [] ∧
      (refreshTokenOp st call).outcome = .error "No refresh token available") := by
  constructor
  · intro st tok e h
    simp [refreshTokenOp, h]
  · intro st call h
    simp [refreshTokenOp, h]

/-- Witness for the amended C2 at concrete inputs. -/
theorem C2_refresh_failure_behavior_witness :
    (refreshTokenOp { accessToken := some "A", refreshToken := some "R" }
        (.error "boom")).dispatched = [AuthAction.LOGOUT] ∧
    (refreshTokenOp { accessToken := some "A", refreshToken := none }
        (.ok { access_token := "x", refresh_token := "y" })).dispatched = [] := by
  exact ⟨(C2_refresh_failure_behavior.1
            { accessToken := some "A", refreshToken := some "R" } "R" "boom" rfl).2.2.1,
         (C2_refresh_failure_behavior.2
            { accessToken := some "A", refreshToken := none }
            (.ok { access_token := "x", refresh_token := "y" }) rfl).2.1⟩

/-- C3 counterexample: on a backend response with `mfa_required = true`,
`login` resolves (`Except.ok`) instead of rejecting — the MFA error is
thrown inside the `try`, caught, and turned into a `LOGIN_FAILURE`
dispatch, so nothing propagates to the caller. -/
theorem C3_counterexample :
    (login { accessToken := none, refreshToken := none }
        (.ok { mfa_required := true, access_token := "a", refresh_token := "b" })
        (.ok { id := 1, email := "u@example.com" })).outcome = .ok () ∧
    (login { accessToken := none, refreshToken := none }
        (.ok { mfa_required := true, access_token := "a", refresh_token := "b" })
        (.ok { id := 1, email := "u@example.com" })).dispatched
      = [AuthAction.LOGIN_START,
         AuthAction.LOGIN_FAILURE "MFA not implemented in this demo"] := by
  decide

/-- C3 amended: when the backend response signals `mfa_required`, `login`
raises the explicit unimplemented-MFA error internally but catches it and
dispatches `LOGIN_FAILURE "MFA not implemented in this demo"`; the login
promise itself resolves rather than rejecting. -/
theorem C3_login_mfa_failure_dispatch :
    ∀ (st : Storage) (resp : LoginResponse) (getU : Except String User),
      resp.mfa_required = true →
      (login st (.ok resp) getU).dispatched
        = [AuthAction.LOGIN_START,
           AuthAction.LOGIN_FAILURE "MFA not implemented in this demo"] ∧
      (login st (.ok resp) getU).outcome = .ok () := by
  intro st resp getU h
  simp [login, h]

/-- Witness for the amended C3 at concrete inputs. -/
theorem C3_login_mfa_failure_dispatch_witness :
    (login { accessToken := some "old", refreshToken := some "oldr" }
        (.ok { mfa_required := true, access_token := "a", refresh_token := "b" })
        (.error "never called")).outcome = .ok () :=
  (C3_login_mfa_failure_dispatch
    { accessToken := some "old", refreshToken := some "oldr" }
    { mfa_required := true, access_token := "a", refresh_token := "b" }
    (.error "never called") rfl).2

/-- C9: on the `mfa_required` path `login` writes neither token to local
storage — the error is raised before the token-storage step, so storage is
exactly what it was before the call. -/
theorem C9_mfa_path_preserves_storage :
    ∀ (st : Storage) (resp : LoginResponse) (getU : Except String User),
      resp.mfa_required = true →
      (login st (.ok resp) getU).storage = st := by
  intro st resp getU h
  simp [login, h]

/-- Witness for C9 at concrete inputs. -/
theorem C9_mfa_path_preserves_storage_witness :
    (login { accessToken := some "keepA", refreshToken := some "keepR" }
        (.ok { mfa_required := true, access_token := "new", refresh_token := "newr" })
        (.ok { id := 7, email := "w@example.com" })).storage
      = { accessToken := some "keepA", refreshToken := some "keepR" } :=
  C9_mfa_path_preserves_storage
    { accessToken := some "keepA", refreshToken := some "keepR" }
    { mfa_required := true, access_token := "new", refresh_token := "newr" }
    (.ok { id := 7, email := "w@example.com" }) rfl

end AuthClient

namespace Dashboard

/-- The slice of the `Account` API type the dashboard page reads.
Monetary values are exact two-digit decimals, modelled as rationals. -/
structure Account where
  current_balance : ℚ
deriving DecidableEq

/-- The slice of the transaction-summary response the dashboard reads. -/
structure TransactionSummary where
  total_income : ℚ
  total_expenses : ℚ
deriving DecidableEq

/-- `totalBalance` from `DashboardPage`: `accounts?.reduce((sum, account)
=> sum + account.current_balance, 0) || 0`.  An undefined query result is
`none`; `|| 0` maps `undefined` to `0` and is the identity on the numeric
reduce result. -/
def totalBalance (accounts : Option (List Account)) : ℚ :=
  match accounts with
  | some l => l.foldl (fun sum account => sum + account.current_balance) 0
  | none => 0

/-- `thisMonthIncome` from `DashboardPage`: `summary?.total_income || 0`. -/
def thisMonthIncome (summary : Option TransactionSummary) : ℚ :=
  match summary with
  | some s => s.total_income
  | none => 0

/-- `thisMonthExpenses` from `DashboardPage`: `summary?.total_expenses || 0`. -/
def thisMonthExpenses (summary : Option TransactionSummary) : ℚ :=
  match summary with
  | some s => s.total_expenses
  | none => 0

/-- `netIncome` from `DashboardPage`: `thisMonthIncome - thisMonthExpenses`. -/
def netIncome (summary : Option TransactionSummary) : ℚ :=
  thisMonthIncome summary - thisMonthExpenses summary

theorem foldl_balance_eq_sum (l : List Account) (r : ℚ) :
    l.foldl (fun sum account => sum + account.current_balance) r
      = r + (l.map Account.current_balance).sum := by
  induction l generalizing r with
  | nil => simp
  | cons a l ih => simp [List.foldl_cons, ih, add_assoc]

/-- C6: the dashboard figures are pure functions of the fetched data —
total balance is the sum of the fetched accounts' `current_balance`
values, net income is the summary's income minus expenses, and at the
concrete instance balances `[100.00, -50.00, 2000.00]` with income
`3000.00` / expenses `1200.00` they evaluate to `2050.00` and `1800.00`. -/
theorem C6_dashboard_figures :
    (∀ l : List Account,
      totalBalance (some l) = (l.map Account.current_balance).sum) ∧
    (∀ s : TransactionSummary,
      netIncome (some s) = s.total_income - s.total_expenses) ∧
    totalBalance (some [⟨100⟩, ⟨-50⟩, ⟨2000⟩]) = 2050 ∧
    netIncome (some ⟨3000, 1200⟩) = 1800 := by
  refine ⟨?_, ?_, ?_, ?_⟩
  · intro l
    simp [totalBalance, foldl_balance_eq_sum]
  · intro s
    rfl
  · norm_num [totalBalance]
  · norm_num [netIncome, thisMonthIncome, thisMonthExpenses]

/-- C10: the dashboard derivations are total over missing data — an
undefined accounts result yields total balance `0`, and an undefined
summary yields income `0`, expenses `0`, and net income `0`. -/
theorem C10_dashboard_total_on_missing_data :
    totalBalance none = 0 ∧ thisMonthIncome none = 0 ∧
    thisMonthExpenses none = 0 ∧ netIncome none = 0 := by
  refine ⟨rfl, rfl, rfl, ?_⟩
  norm_num [netIncome, thisMonthIncome, thisMonthExpenses]

end Dashboard

namespace Schema

/-- `accounts.account_type` enumeration from the migration. -/
inductive AccountType where
  | checking | savings | credit_card | investment | loan
deriving Repr, DecidableEq

/-- A `users` row (columns relevant to the view and the delete actions). -/
structure UserRow where
  id : Nat
  email : String
  first_name : String
  last_name : String
  is_active : Bool
deriving DecidableEq

/-- An `accounts` row (columns relevant to the view and the delete actions). -/
structure AccountRow where
  id : Nat
  user_id : Nat
  account_type : AccountType
  current_balance : ℚ
  is_active : Bool
deriving DecidableEq

/-- One result row of the `user_account_summary` view. -/
structure SummaryRow where
  user_id : Nat
  email : String
  first_name : String
  last_name : String
  total_accounts : Nat
  total_cash : ℚ
  total_credit_debt : ℚ
  total_investments : ℚ
deriving DecidableEq

/-- `LEFT JOIN accounts a ON u.id = a.user_id AND a.is_active = TRUE` for
one `users` row: the matching account rows, or a single all-NULL row
(`none`) when no account matches. -/
def leftJoinAccounts (accounts : List AccountRow) (uid : Nat) :
    List (Option AccountRow) :=
  let matched := accounts.filter (fun a => a.user_id == uid && a.is_active)
  if matched.isEmpty then [none] else matched.map some

/-- `COUNT(a.id)`: a NULL joined row contributes 0, any other row 1. -/
def countContribution (r : Option AccountRow) : Nat :=
  match r with
  | some _ => 1
  | none => 0

/-- `SUM(CASE WHEN <p> THEN a.current_balance ELSE 0 END)` for one joined
row; on the all-NULL row the `CASE` takes the `ELSE 0` branch. -/
def caseSum (p : AccountRow → Bool) (r : Option AccountRow) : ℚ :=
  match r with
  | some a => if p a then a.current_balance else 0
  | none => 0

/-- `a.account_type IN ('checking', 'savings')`. -/
def isCashType (a : AccountRow) : Bool :=
  a.account_type == AccountType.checking || a.account_type == AccountType.savings

/-- `a.account_type = 'credit_card'`. -/
def isCreditCardType (a : AccountRow) : Bool :=
  a.account_type == AccountType.credit_card

/-- `a.account_type = 'investment'`. -/
def isInvestmentType (a : AccountRow) : Bool :=
  a.account_type == AccountType.investment

/-- The `user_account_summary` view from the migration: active users only
(`WHERE u.is_active = TRUE`), grouped per user row, aggregating over the
left-joined active accounts. -/
def user_account_summary (users : List UserRow) (accounts : List AccountRow) :
    List SummaryRow :=
  (users.filter (fun u => u.is_active)).map (fun u =>
    let rows := leftJoinAccounts accounts u.id
    { user_id := u.id
      email := u.email
      first_name := u.first_name
      last_name := u.last_name
      total_accounts := (rows.map countContribution).sum
      total_cash := (rows.map (caseSum isCashType)).sum
      total_credit_debt := (rows.map (caseSum isCreditCardType)).sum
      total_investments := (rows.map (caseSum isInvestmentType)).sum })

/-- The active accounts belonging to one user. -/
def activeAccountsOf (accounts : List AccountRow) (uid : Nat) : List AccountRow :=
  accounts.filter (fun a => a.user_id == uid && a.is_active)

/-- Modelled from the spec's words for comparison with the view: per
active user, the count of that user's active accounts, cash as the sum of
`current_balance` over active checking/savings accounts, credit-card debt
over active credit-card accounts, and investments over active investment
accounts. -/
def specSummaryRow (accounts : List AccountRow) (u : UserRow) : SummaryRow :=
  { user_id := u.id
    email := u.email
    first_name := u.first_name
    last_name := u.last_name
    total_accounts := (activeAccountsOf accounts u.id).length
    total_cash :=
      (((activeAccountsOf accounts u.id).filter isCashType).map
        AccountRow.current_balance).sum
    total_credit_debt :=
      (((activeAccountsOf accounts u.id).filter isCreditCardType).map
        AccountRow.current_balance).sum
    total_investments :=
      (((activeAccountsOf accounts u.id).filter isInvestmentType).map
        AccountRow.current_balance).sum }

theorem count_join_eq_length (l : List AccountRow) :
    (l.map (fun a => countContribution (some a))).sum = l.length := by
  induction l with
  | nil => rfl
  | cons a l ih => simp [countContribution, ih, Nat.add_comm]

theorem caseSum_join_eq_filter_sum (p : AccountRow → Bool) (l : List AccountRow) :
    (l.map (fun a => caseSum p (some a))).sum
      = ((l.filter p).map AccountRow.current_balance).sum := by
  induction l with
  | nil => rfl
  | cons a l ih =>
      simp only [caseSum] at ih ⊢
      by_cases h : p a = true
      · simp [h, List.filter_cons, ih]
      · simp only [Bool.not_eq_true] at h
        simp [h, List.filter_cons, ih]

/-- C7: the `user_account_summary` view equals, row for row over the
active users, the spec-side summary: the count of the user's active
accounts, total cash over active checking/savings accounts, credit-card
debt over active credit-card accounts, and investments over active
investment accounts. -/
theorem C7_user_account_summary_correct :
    ∀ (users : List UserRow) (accounts : List AccountRow),
      user_account_summary users accounts
        = (users.filter (fun u => u.is_active)).map (specSummaryRow accounts) := by
  intro users accounts
  unfold user_account_summary
  apply List.map_congr_left
  intro u _
  unfold leftJoinAccounts specSummaryRow activeAccountsOf
  by_cases h :
      (accounts.filter (fun a => a.user_id == u.id && a.is_active)).isEmpty = true
  · rw [List.isEmpty_iff] at h
    simp [h, countContribution, caseSum]
  · simp only [h, if_false, Bool.false_eq_true]
    simp only [List.map_map, Function.comp_def]
    simp [count_join_eq_length, caseSum_join_eq_filter_sum, List.filter_filter]

end Schema

namespace Schema

/-- A `transactions` row: owned by an account (`ON DELETE CASCADE`). -/
structure TransactionRow where
  id : Nat
  account_id : Nat
deriving DecidableEq

/-- A `budgets` row: owned by a user (`ON DELETE CASCADE`). -/
structure BudgetRow where
  id : Nat
  user_id : Nat
deriving DecidableEq

/-- A `goals` row: owned by a user (`ON DELETE CASCADE`). -/
structure GoalRow where
  id : Nat
  user_id : Nat
deriving DecidableEq

/-- A `chat_conversations` row: 36-character id, owned by a user
(`ON DELETE CASCADE`). -/
structure ConversationRow where
  id : String
  user_id : Nat
deriving DecidableEq

/-- A `chat_messages` row: owned by a conversation (`ON DELETE CASCADE`). -/
structure MessageRow where
  id : Nat
  conversation_id : String
deriving DecidableEq

/-- A `recurring_transactions` row: user and account foreign keys, both
`ON DELETE CASCADE`. -/
structure RecurringRow where
  id : Nat
  user_id : Nat
  account_id : Nat
deriving DecidableEq

/-- A `bill_reminders` row: owned by a user (`ON DELETE CASCADE`). -/
structure BillRow where
  id : Nat
  user_id : Nat
deriving DecidableEq

/-- A `financial_reports` row: owned by a user (`ON DELETE CASCADE`). -/
structure ReportRow where
  id : Nat
  user_id : Nat
deriving DecidableEq

/-- An `audit_logs` row: nullable user reference (`ON DELETE SET NULL`). -/
structure AuditRow where
  id : Nat
  user_id : Option Nat
deriving DecidableEq

/-- A `user_sessions` row: 36-character id, owned by a user
(`ON DELETE CASCADE`). -/
structure SessionRow where
  id : String
  user_id : Nat
deriving DecidableEq

/-- The database state over the tables touched by a user deletion. -/
structure Db where
  users : List UserRow
  accounts : List AccountRow
  transactions : List TransactionRow
  budgets : List BudgetRow
  goals : List GoalRow
  chat_conversations : List ConversationRow
  chat_messages : List MessageRow
  recurring_transactions : List RecurringRow
  bill_reminders : List BillRow
  financial_reports : List ReportRow
  audit_logs : List AuditRow
  user_sessions : List SessionRow
deriving DecidableEq

/-- The ids of the accounts a user deletion removes. -/
def deletedAccountIds (db : Db) (uid : Nat) : List Nat :=
  (db.accounts.filter (fun a => a.user_id == uid)).map AccountRow.id

/-- The ids of the chat conversations a user deletion removes. -/
def deletedConversationIds (db : Db) (uid : Nat) : List String :=
  (db.chat_conversations.filter (fun c => c.user_id == uid)).map ConversationRow.id

/-- Deleting a `users` row under the migration's foreign-key actions:
`ON DELETE CASCADE` on accounts (and through them transactions), budgets,
goals, chat conversations (and through them chat messages), recurring
transactions (via both of its foreign keys), bill reminders, financial
reports, and user sessions; `ON DELETE SET NULL` on audit logs. -/
def deleteUser (db : Db) (uid : Nat) : Db :=
  { users := db.users.filter (fun u => u.id != uid)
    accounts := db.accounts.filter (fun a => a.user_id != uid)
    transactions := db.transactions.filter
      (fun t => !((deletedAccountIds db uid).contains t.account_id))
    budgets := db.budgets.filter (fun b => b.user_id != uid)
    goals := db.goals.filter (fun g => g.user_id != uid)
    chat_conversations := db.chat_conversations.filter (fun c => c.user_id != uid)
    chat_messages := db.chat_messages.filter
      (fun m => !((deletedConversationIds db uid).contains m.conversation_id))
    recurring_transactions := db.recurring_transactions.filter
      (fun r => r.user_id != uid && !((deletedAccountIds db uid).contains r.account_id))
    bill_reminders := db.bill_reminders.filter (fun b => b.user_id != uid)
    financial_reports := db.financial_reports.filter (fun r => r.user_id != uid)
    audit_logs := db.audit_logs.map
      (fun l => if l.user_id == some uid then { l with user_id := none } else l)
    user_sessions := db.user_sessions.filter (fun s => s.user_id != uid) }

theorem all_filter_imp {α : Type} (p q : α → Bool) (l : List α)
    (h : ∀ a, p a = true → q a = true) : (l.filter p).all q = true := by
  rw [List.all_eq_true]
  intro a ha
  exact h a (List.of_mem_filter ha)

/-- C8: after deleting a user, no surviving row of any cascaded table
references that user (accounts, budgets, goals, chat conversations,
recurring transactions, bill reminders, financial reports, user sessions,
nor — through the deleted accounts and conversations — transactions and
chat messages), while the audit log keeps every row, in order and by id,
with any reference to the deleted user set to null. -/
theorem C8_delete_user_cascade :
    ∀ (db : Db) (uid : Nat),
      ((deleteUser db uid).users.all (fun u => u.id != uid) = true) ∧
      ((deleteUser db uid).accounts.all (fun a => a.user_id != uid) = true) ∧
      ((deleteUser db uid).transactions.all
        (fun t => !((deletedAccountIds db uid).contains t.account_id)) = true) ∧
      ((deleteUser db uid).budgets.all (fun b => b.user_id != uid) = true) ∧
      ((deleteUser db uid).goals.all (fun g => g.user_id != uid) = true) ∧
      ((deleteUser db uid).chat_conversations.all
        (fun c => c.user_id != uid) = true) ∧
      ((deleteUser db uid).chat_messages.all
        (fun m => !((deletedConversationIds db uid).contains m.conversation_id))
          = true) ∧
      ((deleteUser db uid).recurring_transactions.all
        (fun r => r.user_id != uid) = true) ∧
      ((deleteUser db uid).bill_reminders.all (fun b => b.user_id != uid) = true) ∧
      ((deleteUser db uid).financial_reports.all
        (fun r => r.user_id != uid) = true) ∧
      ((deleteUser db uid).user_sessions.all (fun s => s.user_id != uid) = true) ∧
      ((deleteUser db uid).audit_logs.length = db.audit_logs.length) ∧
      ((deleteUser db uid).audit_logs.all (fun l => l.user_id != some uid) = true) ∧
      ((deleteUser db uid).audit_logs.map AuditRow.id
        = db.audit_logs.map AuditRow.id) := by
  intro db uid
  refine ⟨?_, ?_, ?_, ?_, ?_, ?_, ?_, ?_, ?_, ?_, ?_, ?_, ?_, ?_⟩
  · exact all_filter_imp _ _ _ (fun a h => h)
  · exact all_filter_imp _ _ _ (fun a h => h)
  · exact all_filter_imp _ _ _ (fun a h => h)
  · exact all_filter_imp _ _ _ (fun a h => h)
  · exact all_filter_imp _ _ _ (fun a h => h)
  · exact all_filter_imp _ _ _ (fun a h => h)
  · exact all_filter_imp _ _ _ (fun a h => h)
  · refine all_filter_imp _ _ _ (fun a h => ?_)
    have h2 := h
    simp only [Bool.and_eq_true] at h2
    exact h2.1
  · exact all_filter_imp _ _ _ (fun a h => h)
  · exact all_filter_imp _ _ _ (fun a h => h)
  · exact all_filter_imp _ _ _ (fun a h => h)
  · exact List.length_map _ _
  · rw [List.all_eq_true]
    intro l hl
    rcases List.mem_map.mp hl with ⟨b, _, rfl⟩
    by_cases hb : (b.user_id == some uid) = true
    · simp [hb]
    · simp only [Bool.not_eq_true] at hb
      simp [hb]
      intro hc
      rw [hc] at hb
      simp at hb
  · simp only [deleteUser]
    rw [List.map_map]
    apply List.map_congr_left
    intro l _
    simp only [Function.comp_apply]
    split <;> rfl

end Schema

namespace TestScript

/-- `pat` is an initial segment of the character list. -/
def isPrefixL : List Char → List Char → Bool
  | [], _ => true
  | _ :: _, [] => false
  | a :: as, b :: bs => a == b && isPrefixL as bs

/-- Fixed-string containment on character lists, as `grep` matches a
literal pattern anywhere in a line. -/
def containsL (pat : List Char) : List Char → Bool
  | [] => pat.isEmpty
  | c :: rest => isPrefixL pat (c :: rest) || containsL pat rest

/-- `grep`-style fixed-string containment on strings. -/
def containsSub (s pat : String) : Bool := containsL pat.data s.data

/-- One `record_test` invocation: test name, result, details. -/
structure TestRecord where
  name : String
  result : String
  details : String
deriving DecidableEq

/-- The line `record_test` appends to `test_results.txt`:
`"$test_name: $result - $details"`. -/
def recordLine (r : TestRecord) : String :=
  r.name ++ ": " ++ r.result ++ " - " ++ r.details

/-- `grep -E "(backend_unit|integration_api|database)"` on one line. -/
def isCriticalPattern (line : String) : Bool :=
  containsSub line "backend_unit" || containsSub line "integration_api" ||
    containsSub line "database"

/-- `grep "FAIL" test_results.txt`. -/
def grepFailures (lines : List String) : List String :=
  lines.filter (fun l => containsSub l "FAIL")

/-- The second `grep` of the critical-failure pipeline. -/
def grepCriticalOnes (lines : List String) : List String :=
  lines.filter isCriticalPattern

/-- `critical_failures=$(grep "FAIL" ... | grep -E "(backend_unit|integration_api|database)" | wc -l)`. -/
def critical_failures (records : List TestRecord) : Nat :=
  (grepCriticalOnes (grepFailures (records.map recordLine))).length

/-- The gate at the end of `test.sh`: when the run reaches it, exit 1
if `critical_failures` is positive, else fall through to exit 0.  (This
is only the gate itself; whether a run reaches it is decided by
`testScriptRun` below, since `set -e` can terminate the script earlier.) -/
def criticalGateExit (records : List TestRecord) : Nat :=
  if 0 < critical_failures records then 1 else 0

/-- `record_test` with result `PASS`/`FAIL` chosen by the guarded command. -/
def passFailRecord (name passDetails failDetails : String) (ok : Bool) :
    TestRecord :=
  if ok then ⟨name, "PASS", passDetails⟩ else ⟨name, "FAIL", failDetails⟩

/-- The `performance_api_response` record, whose details interpolate the
measured response time. -/
def perfRecord (ok : Bool) (t : String) : TestRecord :=
  if ok then
    ⟨"performance_api_response", "PASS", "API response time: " ++ t ++ "s"⟩
  else
    ⟨"performance_api_response", "FAIL", "API response time: " ++ t ++ "s (>1s)"⟩

/-- The `frontend_bundle_size` record, whose details interpolate the
measured bundle size. -/
def bundleRecord (size : String) : TestRecord :=
  ⟨"frontend_bundle_size", "INFO", "Bundle size: " ++ size⟩

/-- One run of `test.sh` that reaches the recording sections (the
script's earlier unguarded setup commands — `cd`, `venv`, `pip`, `npm ci`,
`docker run`, the `curl` status captures — abort the run under `set -e`
before writing any record when they fail; such a run produces no records
and no gate decision and is outside this state).  Fields give, per
section, whether its optional tooling/phase was present, whether each
guarded test command succeeded, the two interpolated report strings, and
the raw exit statuses of the two test commands that run unguarded under
`set -e`: `ab` (test.sh:320) and `npx playwright test`/`npx cypress run`
(test.sh:343/352). -/
structure ScriptRun where
  backendUnitPass : Bool
  backendIntegrationPass : Bool
  banditAvailable : Bool
  banditPass : Bool
  flakeAvailable : Bool
  flakePass : Bool
  mypyAvailable : Bool
  mypyPass : Bool
  frontendUnitPass : Bool
  eslintPass : Bool
  tscPass : Bool
  buildPass : Bool
  distExists : Bool
  bundleSize : String
  dockerAvailable : Bool
  dbConnectionPass : Bool
  dbSchemaPass : Bool
  composeAvailable : Bool
  apiHealthPass : Bool
  registrationPass : Bool
  frontendAccessPass : Bool
  apiPerfPass : Bool
  apiResponseTime : String
  abAvailable : Bool
  abExit : Nat
  e2eRecorded : Bool
  e2eExit : Nat
  mobilePresent : Bool
  mobilePass : Bool

def seg_backend_unit (ok : Bool) : List TestRecord :=
  [passFailRecord "backend_unit_tests" "All unit tests passed"
    "Some unit tests failed" ok]

def seg_backend_integration (ok : Bool) : List TestRecord :=
  [passFailRecord "backend_integration_tests" "All integration tests passed"
    "Some integration tests failed" ok]

def seg_security (avail ok : Bool) : List TestRecord :=
  if avail then
    [passFailRecord "backend_security" "No security issues found"
      "Security issues found" ok]
  else [⟨"backend_security", "SKIP", "Bandit not installed"⟩]

def seg_code_quality (avail ok : Bool) : List TestRecord :=
  if avail then
    [passFailRecord "backend_code_quality" "Code quality checks passed"
      "Code quality issues found" ok]
  else []

def seg_type_checking (avail ok : Bool) : List TestRecord :=
  if avail then
    [passFailRecord "backend_type_checking" "Type checking passed"
      "Type checking issues found" ok]
  else []

def seg_frontend_unit (ok : Bool) : List TestRecord :=
  [passFailRecord "frontend_unit_tests" "All frontend unit tests passed"
    "Some frontend unit tests failed" ok]

def seg_frontend_lint (ok : Bool) : List TestRecord :=
  [passFailRecord "frontend_linting" "No linting errors" "Linting errors found" ok]

def seg_frontend_tsc (ok : Bool) : List TestRecord :=
  [passFailRecord "frontend_type_checking" "No type errors" "Type errors found" ok]

def seg_frontend_build (ok : Bool) : List TestRecord :=
  [passFailRecord "frontend_build" "Production build successful"
    "Production build failed" ok]

def seg_bundle (dist : Bool) (size : String) : List TestRecord :=
  if dist then [bundleRecord size] else []

def seg_database (avail connOk schemaOk : Bool) : List TestRecord :=
  if avail then
    [passFailRecord "database_connection" "Database connection successful"
      "Database connection failed" connOk,
     passFailRecord "database_schema" "Schema creation successful"
      "Schema creation failed" schemaOk]
  else []

/-- The four `curl`-probe records of the compose-based integration block
(the `ab` load test that follows them is handled by `testScriptRun`,
since it runs unguarded). -/
def seg_integration_curls (avail healthOk regOk faOk perfOk : Bool)
    (t : String) : List TestRecord :=
  if avail then
    [passFailRecord "integration_api_health" "Health endpoint responsive"
      "Health endpoint not responsive" healthOk,
     passFailRecord "integration_user_registration" "User registration successful"
      "User registration failed" regOk,
     passFailRecord "integration_frontend_access" "Frontend accessible"
      "Frontend not accessible" faOk,
     perfRecord perfOk t]
  else []

/-- The `performance_load_test` record, written only when the compose
block ran, `ab` was available, and the unguarded `ab` command survived
`set -e` (its record is unconditionally `PASS`). -/
def seg_load (avail ab : Bool) : List TestRecord :=
  if avail && ab then
    [⟨"performance_load_test", "PASS",
      "Load test completed (100 requests, 10 concurrent)"⟩]
  else []

/-- The `e2e_tests` record, written only when an E2E configuration and a
runner were present and the unguarded `npx playwright test`/`npx cypress
run` command exited 0: under `set -e` (test.sh:6) a non-zero E2E command
terminates the script at test.sh:343/352 before `record_test` runs, so
the `FAIL` branch at test.sh:348/357 is unreachable and only the `PASS`
record can ever be written.  A run that survives to this record therefore
always records `PASS`. -/
def seg_e2e (recorded : Bool) : List TestRecord :=
  if recorded then [⟨"e2e_tests", "PASS", "E2E tests passed"⟩] else []

def seg_mobile (present ok : Bool) : List TestRecord :=
  if present then
    [passFailRecord "mobile_tests" "Mobile tests passed" "Mobile tests failed" ok]
  else []

/-- The run of `test.sh` from the first recording section to process
exit: the final `test_results.txt` contents and the process exit status.
Under `set -e`, a failing unguarded `ab` (test.sh:320) or `npx playwright
test`/`npx cypress run` (test.sh:343/352) terminates the process with
that command's status, before any further record and before the
critical-failure gate; otherwise the run reaches the gate at
test.sh:477-484. -/
def testScriptRun (r : ScriptRun) : List TestRecord × Nat :=
  let pre := seg_backend_unit r.backendUnitPass ++
    seg_backend_integration r.backendIntegrationPass ++
    seg_security r.banditAvailable r.banditPass ++
    seg_code_quality r.flakeAvailable r.flakePass ++
    seg_type_checking r.mypyAvailable r.mypyPass ++
    seg_frontend_unit r.frontendUnitPass ++
    seg_frontend_lint r.eslintPass ++
    seg_frontend_tsc r.tscPass ++
    seg_frontend_build r.buildPass ++
    seg_bundle r.distExists r.bundleSize ++
    seg_database r.dockerAvailable r.dbConnectionPass r.dbSchemaPass ++
    seg_integration_curls r.composeAvailable r.apiHealthPass r.registrationPass
      r.frontendAccessPass r.apiPerfPass r.apiResponseTime
  if r.composeAvailable && r.abAvailable && r.abExit != 0 then
    (pre, r.abExit)
  else
    let pre2 := pre ++ seg_load r.composeAvailable r.abAvailable
    if r.e2eRecorded && r.e2eExit != 0 then
      (pre2, r.e2eExit)
    else
      let complete := pre2 ++ seg_e2e r.e2eRecorded ++
        seg_mobile r.mobilePresent r.mobilePass
      (complete, criticalGateExit complete)

/-- A run in which every critical-category test (backend unit,
integration API, database) passes, every tool is present, and the E2E
command fails with exit 1. -/
def e2eFailingRun : ScriptRun :=
  { backendUnitPass := true
    backendIntegrationPass := true
    banditAvailable := true
    banditPass := true
    flakeAvailable := true
    flakePass := true
    mypyAvailable := true
    mypyPass := true
    frontendUnitPass := true
    eslintPass := true
    tscPass := true
    buildPass := true
    distExists := true
    bundleSize := "12M"
    dockerAvailable := true
    dbConnectionPass := true
    dbSchemaPass := true
    composeAvailable := true
    apiHealthPass := true
    registrationPass := true
    frontendAccessPass := true
    apiPerfPass := true
    apiResponseTime := "0.42"
    abAvailable := true
    abExit := 0
    e2eRecorded := true
    e2eExit := 1
    mobilePresent := true
    mobilePass := true }

end TestScript

namespace TestScript

/-- C5: the claim is right about the intended gate but the code breaks
it — under `set -e`, any run that reaches a failing E2E command exits
with that command's non-zero status before the `e2e_tests` failure is
even recorded and before the critical-failure gate runs; in particular,
in the concrete run where every critical-category test passes and only
the E2E command fails, the process exits 1 with zero critical failures
and no `e2e_tests` record at all.  (The dead `record_test "e2e_tests"
"FAIL"` branch at test.sh:348/357 shows the soft-failure recording the
claim describes was the intent.) -/
theorem C5_e2e_failure_aborts_before_gate :
    (∀ r : ScriptRun, r.e2eRecorded = true → r.e2eExit ≠ 0 →
      (r.composeAvailable = true → r.abAvailable = true → r.abExit = 0) →
      (testScriptRun r).2 = r.e2eExit) ∧
    ((testScriptRun e2eFailingRun).2 = 1 ∧
     critical_failures (testScriptRun e2eFailingRun).1 = 0 ∧
     (testScriptRun e2eFailingRun).1.all
       (fun rec => rec.name != "e2e_tests") = true) := by
  constructor
  · intro r h1 h2 h3
    have hab : (r.composeAvailable && r.abAvailable && r.abExit != 0) = false := by
      cases hc : r.composeAvailable
      · simp
      · cases ha : r.abAvailable
        · simp
        · have h0 := h3 hc ha
          simp [h0]
    have he : (r.e2eRecorded && r.e2eExit != 0) = true := by
      simp [h1, bne_iff_ne, h2]
    simp [testScriptRun, hab, he]
  · refine ⟨?_, ?_, ?_⟩
    · decide
    · decide
    · decide

/-- Witness for C5 at the concrete failing run, discharging the
hypotheses of the general abort-propagation conjunct. -/
theorem C5_e2e_failure_aborts_before_gate_witness :
    (testScriptRun e2eFailingRun).2 = e2eFailingRun.e2eExit := by
  exact C5_e2e_failure_aborts_before_gate.1 e2eFailingRun rfl
    (by decide) (fun _ _ => rfl)

end TestScript

namespace DeployScript

/-- One console line of the deploy script, tagged by which print helper
emitted it (`print_status`, `print_success`, `print_warning`,
`print_error`). -/
inductive LogEntry where
  | info (msg : String)
  | success (msg : String)
  | warning (msg : String)
  | error (msg : String)
deriving DecidableEq

/-- The health-check block of the deploy script.  Each `curl` probe yields
an HTTP status string (`"000"` when the request itself failed, via the
`|| echo "000"` guard), the database probe a boolean; a probe result other
than success prints a `print_error` line and continues. -/
def healthChecks (backendCode frontendCode : String) (dbUp : Bool) :
    List LogEntry :=
  [.info "Running health checks..."] ++
  (if backendCode == "200" then [.success "Backend health check passed"]
   else [.error ("Backend health check failed (HTTP " ++ backendCode ++ ")")]) ++
  (if frontendCode == "200" then [.success "Frontend health check passed"]
   else [.error ("Frontend health check failed (HTTP " ++ frontendCode ++ ")")]) ++
  (if dbUp then [.success "Database health check passed"]
   else [.error "Database health check failed"])

/-- The registration smoke test that follows the health checks. -/
def smokeTests (regCode : String) : List LogEntry :=
  [.info "Running smoke tests..."] ++
  (if regCode == "201" || regCode == "400" then
    [.success "Registration endpoint accessible"]
   else
    [.warning ("Registration endpoint test failed (HTTP " ++ regCode ++ ")")])

/-- The health-check lines of the generated deployment report. -/
def deployReportHealth (backendCode frontendCode : String) (dbUp : Bool) :
    List String :=
  ["- Backend API: " ++ backendCode,
   "- Frontend Web: " ++ frontendCode,
   "- Database: " ++ (if dbUp then "OK" else "FAIL")]

/-- The final-status lines of the script. -/
def finalStatus : List LogEntry :=
  [.success "Deployment completed successfully!"]

/-- Outcome of a deploy run that reached the health-check block: the
console log, the report's health lines, and the process exit code. -/
structure DeployOutcome where
  log : List LogEntry
  report : List String
  exitCode : Nat
deriving DecidableEq

/-- The deploy script from the health-check block to the final status.
All earlier steps abort the run with `exit 1` under `set -e` when they
fail, so a run reaching this block has built its images; none of the
probe commands can abort (each is guarded), and the script contains no
further `exit`, so it finishes with exit code 0. -/
def deployHealthGate (backendCode frontendCode : String) (dbUp : Bool)
    (regCode : String) : DeployOutcome :=
  { log := healthChecks backendCode frontendCode dbUp ++ smokeTests regCode ++
      finalStatus
    report := deployReportHealth backendCode frontendCode dbUp
    exitCode := 0 }

/-- Whether any `print_error` line was emitted. -/
def hasErrorEntry (log : List LogEntry) : Bool :=
  log.any (fun e => match e with | .error _ => true | _ => false)

/-- C4: whenever the backend or frontend health probe does not return a
success status, the deploy run ends with a non-zero exit or an explicit
failure entry; and the final success line is only ever emitted together
with the probes' actual outcome entries and report lines — never from the
image build alone. -/
theorem C4_deploy_health_gate :
    (∀ (b f : String) (dbUp : Bool) (reg : String), (b ≠ "200" ∨ f ≠ "200") →
      (deployHealthGate b f dbUp reg).exitCode ≠ 0 ∨
        hasErrorEntry (deployHealthGate b f dbUp reg).log = true) ∧
    (∀ (b f : String) (dbUp : Bool) (reg : String),
      LogEntry.success "Deployment completed successfully!"
          ∈ (deployHealthGate b f dbUp reg).log →
        ("- Backend API: " ++ b) ∈ (deployHealthGate b f dbUp reg).report ∧
        ("- Frontend Web: " ++ f) ∈ (deployHealthGate b f dbUp reg).report ∧
        (LogEntry.success "Backend health check passed"
            ∈ (deployHealthGate b f dbUp reg).log ∨
         LogEntry.error ("Backend health check failed (HTTP " ++ b ++ ")")
            ∈ (deployHealthGate b f dbUp reg).log) ∧
        (LogEntry.success "Frontend health check passed"
            ∈ (deployHealthGate b f dbUp reg).log ∨
         LogEntry.error ("Frontend health check failed (HTTP " ++ f ++ ")")
            ∈ (deployHealthGate b f dbUp reg).log)) := by
  constructor
  · intro b f dbUp reg h
    right
    rcases h with h | h
    · have hb : (b == "200") = false := by
        simp only [beq_eq_false_iff_ne, ne_eq]
        exact h
      simp [deployHealthGate, healthChecks, hasErrorEntry, hb, smokeTests,
        finalStatus, List.any_append]
    · have hf : (f == "200") = false := by
        simp only [beq_eq_false_iff_ne, ne_eq]
        exact h
      simp [deployHealthGate, healthChecks, hasErrorEntry, hf, smokeTests,
        finalStatus, List.any_append]
  · intro b f dbUp reg _
    refine ⟨?_, ?_, ?_, ?_⟩
    · simp [deployHealthGate, deployReportHealth]
    · simp [deployHealthGate, deployReportHealth]
    · by_cases hb : (b == "200") = true
      · left
        simp [deployHealthGate, healthChecks, hb]
      · right
        simp only [Bool.not_eq_true] at hb
        simp [deployHealthGate, healthChecks, hb]
    · by_cases hf : (f == "200") = true
      · left
        simp [deployHealthGate, healthChecks, hf]
      · right
        simp only [Bool.not_eq_true] at hf
        simp [deployHealthGate, healthChecks, hf]

/-- Witness for C4 at a concrete failed probe. -/
theorem C4_deploy_health_gate_witness :
    (deployHealthGate "000" "200" true "201").exitCode ≠ 0 ∨
      hasErrorEntry (deployHealthGate "000" "200" true "201").log = true :=
  C4_deploy_health_gate.1 "000" "200" true "201" (Or.inl (by decide))

end DeployScript
